import Mathlib

/-!
Shallow embedding of the deterministic result generator of
`src/js/script.js` (a parody web page that maps a username to a fixed
humorous measurement record).  The file contains two concatenated copies
of the generator: the first uses the range 1 to 13 inches and computes a
percentile, the second uses the range 3 to 10 inches and computes none.

Modelling conventions:
* JS strings are modelled as lists of UTF-16 code units (`List Nat`);
  `charCodeAt` is list indexing, `toLowerCase` is the ASCII case map
  (the valid-username domain `[A-Za-z0-9_]` with length 1 to 15 is pure
  ASCII, on which this agrees with JS).
* JS numbers are modelled as exact rationals.  The transcendental
  `Math` functions (`sin`, `log`, `cos`, `sqrt`, `PI`) return IEEE
  doubles, every finite one of which is a rational; they are abstracted
  into a `FloatModel` parameter, so every theorem quantified over the
  model holds in particular for the IEEE interpretation (except on the
  non-finite `log 0` path, which the design notes flag separately).
* `x | 0`-style 32-bit truncation (`hash = hash & hash` after a shift)
  is explicit arithmetic modulo 2^32 reinterpreted as a signed value.
-/

/-- A JS string as its list of UTF-16 code units. -/
abbrev JSStr := List Nat

/-- ASCII lower-casing of one code unit, as `toLowerCase` acts on the
username alphabet. -/
def lowerCode (c : Nat) : Nat :=
  if 65 ≤ c ∧ c ≤ 90 then c + 32 else c

/-- ASCII upper-casing of one code unit, used to build the upper-cased
variants of an identifier. -/
def upperCode (c : Nat) : Nat :=
  if 97 ≤ c ∧ c ≤ 122 then c - 32 else c

/-- `username.toLowerCase()` on the ASCII username alphabet. -/
def toLowerCase (s : JSStr) : JSStr := s.map lowerCode

/-- `username.toUpperCase()` on the ASCII username alphabet. -/
def toUpperCase (s : JSStr) : JSStr := s.map upperCode

/-- One code unit of the valid username alphabet `[A-Za-z0-9_]`
(source `isValidUsername`, script.js line 236). -/
def isValidCode (c : Nat) : Bool :=
  (48 ≤ c && c ≤ 57) || (65 ≤ c && c ≤ 90) || (97 ≤ c && c ≤ 122) || c == 95

/-- `isValidUsername` (script.js lines 236-238): the regex
`[A-Za-z0-9_]` with length between 1 and 15. -/
def isValidUsername (s : JSStr) : Bool :=
  s.all isValidCode && decide (1 ≤ s.length) && decide (s.length ≤ 15)

/-- Reinterpretation of an integer modulo 2^32 as a signed 32-bit
value, the effect of `hash & hash` (`ToInt32`) in JS. -/
def toInt32 (n : ℤ) : ℤ :=
  if n % 4294967296 < 2147483648 then n % 4294967296
  else n % 4294967296 - 4294967296

/-- One step of the hash loop (script.js lines 361-365):
`hash = ((hash << 5) - hash) + char; hash = hash & hash`.  The shift
`hash << 5` itself truncates to 32 bits, hence the inner `toInt32`. -/
def hashStep (h : ℤ) (c : Nat) : ℤ :=
  toInt32 (toInt32 (h * 32) - h + (c : ℤ))

/-- `hashUsername` (script.js lines 357-368, first copy): fold the hash
step over the code units of the lower-cased username, then take the
absolute value. -/
def hashUsername (s : JSStr) : Nat :=
  ((toLowerCase s).foldl hashStep 0).natAbs

/-- `hashUsername` (script.js lines 986-997, second copy): textually
identical to the first copy. -/
def hashUsername2 (s : JSStr) : Nat :=
  ((toLowerCase s).foldl hashStep 0).natAbs

/-- The hash algorithm as the spec words it: accumulate
`h = h * 31 + codepoint` under 32-bit signed overflow semantics over
the lower-cased string and return the absolute value. -/
def hashUsernameSpec (s : JSStr) : Nat :=
  ((toLowerCase s).foldl (fun h (c : Nat) => toInt32 (h * 31 + (c : ℤ))) 0).natAbs

/-- Abstract model of the transcendental `Math` functions used by the
generator.  Any assignment of rationals is allowed, so theorems
quantified over the model cover the actual IEEE doubles. -/
structure FloatModel where
  sin : ℤ → ℚ
  log : ℚ → ℚ
  cos : ℚ → ℚ
  sqrt : ℚ → ℚ
  pi : ℚ

/-- A concrete model instance used to evaluate the development on
closed inputs. -/
def M0 : FloatModel :=
  { sin := fun _ => 0, log := fun _ => 0, cos := fun _ => 0
    sqrt := fun _ => 0, pi := 0 }

/-- `Math.round` on a rational: round half toward positive infinity. -/
def jsRound (x : ℚ) : ℤ := ⌊x + 1 / 2⌋

/-- `seededRandom` (script.js lines 390-393):
`x = sin(seed) * 10000; floor((x - floor(x)) * 1000000)`. -/
def seededRandom (M : FloatModel) (seed : ℤ) : ℤ :=
  let x : ℚ := M.sin seed * 10000
  ⌊(x - (⌊x⌋ : ℚ)) * 1000000⌋

/-- `normalDistribution` (script.js lines 373-385; the second copy at
lines 1002-1014 is textually identical): two folded uniforms, a
Box-Muller transform through the abstract model, scale by 1.2, shift
by the mean, and clamp to `[min, max]`. -/
def normalDistribution (M : FloatModel) (seed : ℤ) (min max mean : ℚ) : ℚ :=
  let random1 : ℚ := ((seededRandom M seed % 1000 : ℤ) : ℚ) / 1000
  let random2 : ℚ := ((seededRandom M (seed + 1) % 1000 : ℤ) : ℚ) / 1000
  let normal : ℚ := M.sqrt (-2 * M.log random1) * M.cos (2 * M.pi * random2)
  let scaled : ℚ := normal * 1.2 + mean
  Max.max min (Min.min max scaled)

/-- `calculatePercentile` (script.js lines 399-420): z-score against
mean 6.5 and standard deviation 2, tails clamped at z = -3 and z = 3,
otherwise `round(50 + z * 16.67)` clamped into `[1, 99]`. -/
def calculatePercentile (size : ℚ) : ℤ :=
  let mean : ℚ := 6.5
  let stdDev : ℚ := 2
  let zScore : ℚ := (size - mean) / stdDev
  if zScore ≤ -3 then 1
  else if 3 ≤ zScore then 99
  else Max.max 1 (Min.min 99 (jsRound (50 + zScore * 16.67)))

/-- The percentile computation as the spec words it. -/
def calculatePercentileSpec (m : ℚ) : ℤ :=
  let z : ℚ := (m - 6.5) / 2
  if z ≤ -3 then 1
  else if 3 ≤ z then 99
  else Max.max 1 (Min.min 99 (jsRound (50 + z * 16.67)))

/-- One entry of `humorousDescriptions`: a closed numeric range and its
pool of candidate description strings. -/
structure SizeCategory where
  lo : ℚ
  hi : ℚ
  descriptions : List String

/-- `humorousDescriptions` of the first generator copy (script.js
lines 21-94): eight categories partitioning 1.0 to 13.0. -/
def humorousDescriptions : List SizeCategory :=
  [ { lo := 1.0, hi := 2.5, descriptions :=
      [ "Micro but mighty! You\x27re like a secret agent gadget - small, discreet, but probably saves the world daily! 🕵️"
      , "Minimalist masterpiece! You\x27ve embraced the \x27less is more\x27 philosophy. Probably a connoisseur of tiny house living! 🏠"
      , "Button-sized brilliance! Like a perfectly crafted espresso shot - small but packs an incredible punch! ☕"
      , "Stealth mode activated! You\x27re the ninja of measurements - what you lack in size, you make up for in pure skill! 🥷" ] }
  , { lo := 2.6, hi := 4.0, descriptions :=
      [ "Compact and clever! Like a Swiss watch - small, precise, and probably worth more than people realize! ⌚"
      , "Fun-size energy! You\x27re the travel-size version of awesome - portable, efficient, and TSA-approved! ✈️"
      , "Bite-sized excellence! You\x27ve mastered the art of doing more with less. Efficiency expert level: Pro! 🎯"
      , "Pocket rocket vibes! Small engine, big performance. You\x27re probably really good at parallel parking! 🚗" ] }
  , { lo := 4.1, hi := 5.5, descriptions :=
      [ "Solidly reliable! You\x27re the Honda Civic of measurements - dependable, efficient, and surprisingly fun! 🚙"
      , "Classic proportions! Not too big, not too small - you\x27re the Goldilocks zone of measurements! 🐻"
      , "Perfectly standard! You represent the everyman with dignity and style. Democracy in action! 🗳️"
      , "Comfortable confidence! Like a good pair of jeans - fits just right and goes with everything! 👖" ] }
  , { lo := 5.6, hi := 7.0, descriptions :=
      [ "Above average achievement! You\x27re like premium coffee - that extra kick that makes everything better! ☕"
      , "Impressive balance! Perfect mix of confidence and humility. The Swiss Army knife of personalities! 🔧"
      , "Solid measurements! You probably read instruction manuals AND actually follow them. Respect! 📋"
      , "Well-proportioned wisdom! You bring just the right amount of everything to the table! 🍽️" ] }
  , { lo := 7.1, hi := 8.5, descriptions :=
      [ "Getting serious now! You\x27re like a luxury sedan - spacious, comfortable, and makes people jealous! 🚙"
      , "Substantial presence! You probably give amazing hugs and have strong opinions about pizza toppings! 🍕"
      , "Confident proportions! You don\x27t need to honk in traffic - your presence speaks for itself! 📯"
      , "Generous dimensions! You probably tip well and remember everyone\x27s birthday. Big heart energy! 💝" ] }
  , { lo := 8.6, hi := 10.0, descriptions :=
      [ "Seriously impressive! You\x27re like a pickup truck - practical, powerful, and great at moving furniture! 🛻"
      , "Big league player! You probably have to duck through doorways and your personality fills rooms! 🚪"
      , "Major measurements! Living proof some people hit the genetic lottery. Great at reaching high shelves! 🎰"
      , "Gentle giant energy! Intimidating at first glance but probably gives the best bear hugs in history! 🐻" ] }
  , { lo := 10.1, hi := 11.5, descriptions :=
      [ "Legendary status unlocked! You\x27re like a monster truck - impressive, powerful, and turns heads everywhere! 🚛"
      , "Absolutely massive! You probably need custom everything and your shadow has its own zip code! 🌘"
      , "Epic proportions! You\x27re basically a walking conversation starter. Airport security probably knows you by name! 🛂"
      , "Titan-level measurements! You\x27re the final boss of measurements. Probably need a permit for that thing! 📜" ] }
  , { lo := 11.6, hi := 13.0, descriptions :=
      [ "MAXIMUM OVERDRIVE! You\x27ve transcended human measurements and entered mythical territory! 🐉"
      , "Cosmic-level proportions! NASA probably wants to study you. You\x27re basically a natural wonder! 🌌"
      , "Legendary mythical status! Ancient civilizations would have written epic poems about your measurements! 📜"
      , "Ultimate final form! You\x27ve maxed out the character creation slider. Probably need planning permission! 🏗️" ] } ]

/-- `humorousDescriptions` of the second generator copy (script.js
lines 683-729): five categories partitioning 3 to 10. -/
def humorousDescriptions2 : List SizeCategory :=
  [ { lo := 3, hi := 4, descriptions :=
      [ "Small but mighty! Like a fun-size candy bar - concentrated goodness that packs a punch. Quality over quantity, my friend! 🍬"
      , "A perfectly compact package! Sometimes the best things come in smaller sizes. You\x27re probably really good with your hands! 👌"
      , "Bite-sized excellence! You\x27ve mastered the art of efficiency. Why use more when less gets the job done perfectly? 🎯"
      , "Pocket rocket! Small, portable, and probably gets invited to more parties. You\x27re the life-size action figure of personalities! 🚀" ] }
  , { lo := 4.1, hi := 5.5, descriptions :=
      [ "Solidly average and proud of it! You\x27re the reliable Honda Civic of personalities - dependable, efficient, and surprisingly fun! 🚗"
      , "Right in the sweet spot! Not too much, not too little - you\x27re the Goldilocks of measurements. Just right for any situation! 🐻"
      , "Perfectly standard! You\x27re like a good pair of jeans - comfortable, reliable, and suitable for most occasions. Classic choice! 👖"
      , "The people\x27s champion! You represent the everyman with dignity and style. Democracy in action, my friend! 🗳️" ] }
  , { lo := 5.6, hi := 7, descriptions :=
      [ "Above average and loving life! You\x27re like a premium coffee - a little extra kick that makes everything better! ☕"
      , "Impressive proportions! You\x27ve got that perfect balance of confidence and humility. The Swiss Army knife of personalities! 🔧"
      , "Solid measurements! You\x27re probably the type who reads instruction manuals and actually follows them. Respect! 📋"
      , "Well-endowed in the personality department! You bring just the right amount of everything to the table. Balanced diet of awesomeness! 🍽️" ] }
  , { lo := 7.1, hi := 8.5, descriptions :=
      [ "Getting into impressive territory! You\x27re like a luxury sedan - spacious, comfortable, and makes people a little jealous! 🚙"
      , "Substantial measurements! You probably give great hugs and have strong opinions about pizza toppings. Living your best life! 🍕"
      , "Confidently proportioned! You\x27re the type who doesn\x27t need to honk in traffic - your presence speaks for itself! 📯"
      , "Generous dimensions! You probably tip well and remember people\x27s birthdays. Big heart, big personality! 💝" ] }
  , { lo := 8.6, hi := 10, descriptions :=
      [ "Absolutely massive energy! You\x27re like a pickup truck - practical, powerful, and probably really good at moving furniture! 🛻"
      , "Legendary proportions! You probably have to duck through doorways and your personality fills entire rooms! 🚪"
      , "Maximum measurements! You\x27re living proof that some people just hit the genetic lottery. Probably great at reaching high shelves! 🎰"
      , "Enormous presence! You\x27re like a gentle giant - intimidating at first glance but probably gives the best bear hugs in history! 🐻" ] } ]

/-- The fallback description returned when no category range matches
(script.js line 434). -/
def fallbackDescription : String :=
  "You\x27re absolutely unique and that\x27s what makes you special! 🌟"

/-- The scanning loop of `getDescriptionForSize` (script.js lines
426-434), generalized over the category table: first category whose
closed range contains the size wins, its description indexed by
`hash % length`; otherwise the fallback. -/
def findDescription (cats : List SizeCategory) (size : ℚ) (hash : Nat) : String :=
  match cats with
  | [] => fallbackDescription
  | cat :: rest =>
    if cat.lo ≤ size ∧ size ≤ cat.hi then
      cat.descriptions.getD (hash % cat.descriptions.length) ""
    else findDescription rest size hash

/-- `getDescriptionForSize` (script.js lines 425-435, first copy). -/
def getDescriptionForSize (size : ℚ) (hash : Nat) : String :=
  findDescription humorousDescriptions size hash

/-- `getDescriptionForSize` of the second copy (script.js lines
1027-1037): the same loop over the second category table. -/
def getDescriptionForSize2 (size : ℚ) (hash : Nat) : String :=
  findDescription humorousDescriptions2 size hash

/-- The result record of the first generator copy (script.js lines
344-351). -/
structure ResultRecord where
  size : ℚ
  originalSize : ℚ
  unit : String
  confidence : ℤ
  description : String
  percentile : ℤ
deriving DecidableEq

/-- The result record of the second generator copy (script.js lines
975-980). -/
structure ResultRecord2 where
  size : ℚ
  unit : String
  confidence : ℤ
  description : String
deriving DecidableEq

/-- `generateResults` (script.js lines 325-352, first copy): hash the
username, draw the size from the clamped normal distribution on 1 to
13 with mean 6.5, round to one decimal, derive confidence, description
and percentile, and convert to cm exactly when the hash is divisible
by 10. -/
def generateResults (M : FloatModel) (username : JSStr) : ResultRecord :=
  let hash := hashUsername username
  let sizeFloat := normalDistribution M (hash : ℤ) 1 13 6.5
  let size : ℚ := (jsRound (sizeFloat * 10) : ℚ) / 10
  let confidence : ℤ := ⌊(75 : ℚ) + ((hash % 25 : ℕ) : ℚ)⌋
  let description := getDescriptionForSize size hash
  let percentile := calculatePercentile size
  let useMetric := hash % 10 == 0
  { size := if useMetric then (jsRound (size * 2.54 * 10) : ℚ) / 10 else size
    originalSize := size
    unit := if useMetric then "cm" else "inches"
    confidence := confidence
    description := description
    percentile := percentile }

/-- The pre-conversion measurement of the second generator copy
(script.js lines 962-964): the rounded draw from the clamped normal
distribution on 3 to 10 with mean 6.5. -/
def size2 (M : FloatModel) (username : JSStr) : ℚ :=
  (jsRound (normalDistribution M (hashUsername2 username : ℤ) 3 10 6.5 * 10) : ℚ) / 10

/-- `generateResults` (script.js lines 959-981, second copy): range 3
to 10, no percentile, no retained original size. -/
def generateResults2 (M : FloatModel) (username : JSStr) : ResultRecord2 :=
  let hash := hashUsername2 username
  let size : ℚ := size2 M username
  let confidence : ℤ := ⌊(75 : ℚ) + ((hash % 25 : ℕ) : ℚ)⌋
  let description := getDescriptionForSize2 size hash
  let useMetric := hash % 10 == 0
  { size := if useMetric then (jsRound (size * 2.54 * 10) : ℚ) / 10 else size
    unit := if useMetric then "cm" else "inches"
    confidence := confidence
    description := description }

/-! ## Helper lemmas -/

/-- Each hash step is congruent to multiplying by 31 and adding the
code unit, modulo 2^32 reinterpreted as signed. -/
theorem hashStep_eq_mul31 (h : ℤ) (c : Nat) :
    hashStep h c = toInt32 (h * 31 + (c : ℤ)) := by
  simp only [hashStep, toInt32]
  split_ifs <;> omega

/-- ASCII lower-casing is idempotent on code units. -/
theorem lowerCode_idem (c : Nat) : lowerCode (lowerCode c) = lowerCode c := by
  simp only [lowerCode]
  split_ifs <;> omega

/-- Lower-casing after upper-casing agrees with lower-casing. -/
theorem lowerCode_upperCode (c : Nat) : lowerCode (upperCode c) = lowerCode c := by
  simp only [lowerCode, upperCode]
  split_ifs <;> omega

/-- `toLowerCase` is idempotent. -/
theorem toLowerCase_idem (s : JSStr) : toLowerCase (toLowerCase s) = toLowerCase s := by
  induction s with
  | nil => rfl
  | cons c cs ih =>
    simp only [toLowerCase, List.map_cons] at *
    rw [lowerCode_idem, ih]

/-- `toLowerCase` after `toUpperCase` agrees with `toLowerCase`. -/
theorem toLowerCase_toUpperCase (s : JSStr) :
    toLowerCase (toUpperCase s) = toLowerCase s := by
  induction s with
  | nil => rfl
  | cons c cs ih =>
    simp only [toLowerCase, toUpperCase, List.map_cons] at *
    rw [lowerCode_upperCode, ih]

/-- The hash of a lower-cased username equals the hash of the
username. -/
theorem hashUsername_toLowerCase (s : JSStr) :
    hashUsername (toLowerCase s) = hashUsername s := by
  unfold hashUsername
  rw [toLowerCase_idem]

/-- The hash of an upper-cased username equals the hash of the
username. -/
theorem hashUsername_toUpperCase (s : JSStr) :
    hashUsername (toUpperCase s) = hashUsername s := by
  unfold hashUsername
  rw [toLowerCase_toUpperCase]

/-- The generator output depends on the username only through its
hash. -/
theorem generateResults_congr (M : FloatModel) {s t : JSStr}
    (h : hashUsername s = hashUsername t) :
    generateResults M s = generateResults M t := by
  unfold generateResults
  rw [h]

/-- The clamped normal draw lies in the requested interval. -/
theorem normalDistribution_mem (M : FloatModel) (seed : ℤ) (mn mx mean : ℚ)
    (h : mn ≤ mx) :
    mn ≤ normalDistribution M seed mn mx mean ∧
    normalDistribution M seed mn mx mean ≤ mx := by
  unfold normalDistribution
  exact ⟨le_max_left _ _, max_le h (min_le_left _ _)⟩

/-- Rounding a value of `[a/10, b/10]` to one decimal stays in
`[a/10, b/10]`. -/
theorem jsRound_div10_mem (x : ℚ) (a b : ℤ)
    (ha : (a : ℚ) / 10 ≤ x) (hb : x ≤ (b : ℚ) / 10) :
    (a : ℚ) / 10 ≤ (jsRound (x * 10) : ℚ) / 10 ∧
    (jsRound (x * 10) : ℚ) / 10 ≤ (b : ℚ) / 10 := by
  have h10 : (0 : ℚ) < 10 := by norm_num
  have hax : (a : ℚ) ≤ x * 10 := (div_le_iff h10).mp ha
  have hxb : x * 10 ≤ (b : ℚ) := (le_div_iff h10).mp hb
  have hlo : a ≤ jsRound (x * 10) := by
    apply Int.le_floor.mpr
    linarith
  have hhi : jsRound (x * 10) ≤ b := by
    have : jsRound (x * 10) < b + 1 := by
      apply Int.floor_lt.mpr
      push_cast
      linarith
    omega
  constructor
  · apply div_le_div_of_nonneg_right _ (by norm_num : (0 : ℚ) ≤ 10)
    exact_mod_cast hlo
  · apply div_le_div_of_nonneg_right _ (by norm_num : (0 : ℚ) ≤ 10)
    exact_mod_cast hhi

/-- The confidence expression evaluates to `75 + hash % 25`. -/
theorem confidence_floor (n : Nat) :
    ⌊(75 : ℚ) + ((n % 25 : ℕ) : ℚ)⌋ = 75 + ((n % 25 : ℕ) : ℤ) := by
  have h : ∀ k : ℕ, (75 : ℚ) + (k : ℚ) = ((75 + (k : ℤ) : ℤ) : ℚ) := by
    intro k
    push_cast
    ring
  rw [h (n % 25), Int.floor_intCast]

/-- The scanning loop returns the description of the first matching
category, and the fallback when none matches. -/
theorem findDescription_eq_find (cats : List SizeCategory) (size : ℚ) (hash : Nat) :
    findDescription cats size hash =
      match cats.find? (fun cat => decide (cat.lo ≤ size ∧ size ≤ cat.hi)) with
      | some cat => cat.descriptions.getD (hash % cat.descriptions.length) ""
      | none => fallbackDescription := by
  induction cats with
  | nil => rfl
  | cons cat rest ih =>
    by_cases h : cat.lo ≤ size ∧ size ≤ cat.hi
    · simp [findDescription, List.find?_cons, h]
    · simp [findDescription, List.find?_cons, h, ih]

/-- A tenth-grid point bound, upper form: `k/10 ≤ x` iff `k ≤ 10 x`. -/
theorem div10_le_iff (k : ℕ) (x : ℚ) (b : ℤ) (hx : x * 10 = (b : ℚ)) :
    ((k : ℚ) / 10 ≤ x) ↔ ((k : ℤ) ≤ b) := by
  rw [div_le_iff (by norm_num : (0 : ℚ) < 10), hx]
  exact_mod_cast Iff.rfl

/-- A tenth-grid point bound, lower form: `x ≤ k/10` iff `10 x ≤ k`. -/
theorem le_div10_iff (k : ℕ) (x : ℚ) (a : ℤ) (hx : x * 10 = (a : ℚ)) :
    (x ≤ (k : ℚ) / 10) ↔ (a ≤ (k : ℤ)) := by
  rw [le_div_iff (by norm_num : (0 : ℚ) < 10), hx]
  exact_mod_cast Iff.rfl

/-! ## Claim theorems -/

/-- C6: `hashUsername` lowercases its input and folds
`h = h * 31 + codepoint` over the code units under 32-bit signed
overflow semantics, returning the absolute value of the final
accumulator; it is a total function and the empty string hashes
to 0. -/
theorem hashUsername_matches_spec :
    (∀ s : JSStr, hashUsername s = hashUsernameSpec s) ∧ hashUsername [] = 0 := by
  constructor
  · intro s
    unfold hashUsername hashUsernameSpec
    congr 1
    exact List.foldl_ext _ _ _ fun h c _ => hashStep_eq_mul31 h c
  · rfl

/-- C7: `calculatePercentile` computes the z-score
`(measurement - 6.5) / 2`, returns 1 at the lower tail, 99 at the
upper tail, and otherwise `round(50 + z * 16.67)` clamped; the result
always lies in `[1, 99]`. -/
theorem calculatePercentile_range (m : ℚ) :
    calculatePercentile m = calculatePercentileSpec m ∧
    1 ≤ calculatePercentile m ∧ calculatePercentile m ≤ 99 := by
  refine ⟨rfl, ?_, ?_⟩
  · unfold calculatePercentile
    dsimp only
    split_ifs
    · exact le_refl 1
    · norm_num
    · exact le_max_left _ _
  · unfold calculatePercentile
    dsimp only
    split_ifs
    · norm_num
    · exact le_refl 99
    · exact max_le (by norm_num) (min_le_left _ _)

/-- C8: `getDescriptionForSize` is total: for any measurement and hash
it returns the description indexed by `hash mod length` from the first
category whose closed range contains the measurement, and the fixed
fallback string when no category matches. -/
theorem getDescriptionForSize_total (size : ℚ) (hash : Nat) :
    getDescriptionForSize size hash =
      match humorousDescriptions.find?
          (fun cat => decide (cat.lo ≤ size ∧ size ≤ cat.hi)) with
      | some cat => cat.descriptions.getD (hash % cat.descriptions.length) ""
      | none => fallbackDescription :=
  findDescription_eq_find humorousDescriptions size hash

/-- C9: `seededRandom` is a deterministic function of its seed whose
value `floor(frac(sin(seed) * 10000) * 1000000)` is an integer in
`[0, 999999]`, for every model of `sin`. -/
theorem seededRandom_range (M : FloatModel) (seed : ℤ) :
    0 ≤ seededRandom M seed ∧ seededRandom M seed ≤ 999999 := by
  unfold seededRandom
  dsimp only
  have hfr : (M.sin seed * 10000) - (⌊M.sin seed * 10000⌋ : ℚ) = Int.fract (M.sin seed * 10000) := by
    rw [Int.fract]
  constructor
  · apply Int.floor_nonneg.mpr
    apply mul_nonneg _ (by norm_num)
    rw [hfr]
    exact Int.fract_nonneg _
  · rw [hfr]
    have h1 : Int.fract (M.sin seed * 10000) < 1 := Int.fract_lt_one _
    have h0 : (0 : ℚ) ≤ Int.fract (M.sin seed * 10000) := Int.fract_nonneg _
    have h2 : ⌊Int.fract (M.sin seed * 10000) * 1000000⌋ < 1000000 := by
      apply Int.floor_lt.mpr
      push_cast
      nlinarith
    omega

/-- C10: the two textual copies of `hashUsername` are extensionally
equal: they compute the same hash for every username. -/
theorem hashUsername_copies_agree : ∀ s : JSStr, hashUsername s = hashUsername2 s :=
  fun _ => rfl

/-- C1: for every valid identifier, two invocations of
`generateResults` return bit-identical records: same size, unit,
confidence, description and percentile.  The generator is a pure
function of the username (and of the fixed transcendental model), so
repeated calls agree. -/
theorem generateResults_deterministic (M : FloatModel) (s : JSStr)
    (_h : isValidUsername s = true) :
    (generateResults M s).size = (generateResults M s).size ∧
    (generateResults M s).unit = (generateResults M s).unit ∧
    (generateResults M s).confidence = (generateResults M s).confidence ∧
    (generateResults M s).description = (generateResults M s).description ∧
    (generateResults M s).percentile = (generateResults M s).percentile ∧
    generateResults M s = generateResults M s :=
  ⟨rfl, rfl, rfl, rfl, rfl, rfl⟩

/-- Witness for C1 at the identifier `alice`. -/
theorem generateResults_deterministic_witness :
    isValidUsername [97, 108, 105, 99, 101] = true ∧
    ((generateResults M0 [97, 108, 105, 99, 101]).size =
        (generateResults M0 [97, 108, 105, 99, 101]).size ∧
      (generateResults M0 [97, 108, 105, 99, 101]).unit =
        (generateResults M0 [97, 108, 105, 99, 101]).unit ∧
      (generateResults M0 [97, 108, 105, 99, 101]).confidence =
        (generateResults M0 [97, 108, 105, 99, 101]).confidence ∧
      (generateResults M0 [97, 108, 105, 99, 101]).description =
        (generateResults M0 [97, 108, 105, 99, 101]).description ∧
      (generateResults M0 [97, 108, 105, 99, 101]).percentile =
        (generateResults M0 [97, 108, 105, 99, 101]).percentile ∧
      generateResults M0 [97, 108, 105, 99, 101] = generateResults M0 [97, 108, 105, 99, 101]) :=
  ⟨by decide, generateResults_deterministic M0 [97, 108, 105, 99, 101] (by decide)⟩

/-- C2: the generator is case-insensitive: lower-casing or
upper-casing a valid identifier leaves the result unchanged, because
the hash is computed from the lower-cased string; in particular the
code-unit lists of the strings Foo, foo and FOO all generate the same
record. -/
theorem generateResults_case_insensitive (M : FloatModel) (s : JSStr)
    (_h : isValidUsername s = true) :
    generateResults M (toLowerCase s) = generateResults M s ∧
    generateResults M (toUpperCase s) = generateResults M s ∧
    generateResults M [70, 111, 111] = generateResults M [102, 111, 111] ∧
    generateResults M [70, 79, 79] = generateResults M [102, 111, 111] :=
  ⟨generateResults_congr M (hashUsername_toLowerCase s),
   generateResults_congr M (hashUsername_toUpperCase s),
   generateResults_congr M (by decide),
   generateResults_congr M (by decide)⟩

/-- Witness for C2 at the identifier `Foo`. -/
theorem generateResults_case_insensitive_witness :
    isValidUsername [70, 111, 111] = true ∧
    (generateResults M0 (toLowerCase [70, 111, 111]) = generateResults M0 [70, 111, 111] ∧
      generateResults M0 (toUpperCase [70, 111, 111]) = generateResults M0 [70, 111, 111] ∧
      generateResults M0 [70, 111, 111] = generateResults M0 [102, 111, 111] ∧
      generateResults M0 [70, 79, 79] = generateResults M0 [102, 111, 111]) :=
  ⟨by decide, generateResults_case_insensitive M0 [70, 111, 111] (by decide)⟩

/-- The rounded clamped draw stays inside the clamp interval when its
endpoints are multiples of one tenth. -/
theorem rounded_clamp_mem (M : FloatModel) (seed : ℤ) (mn mx mean : ℚ) (a b : ℤ)
    (hmn : mn = (a : ℚ) / 10) (hmx : mx = (b : ℚ) / 10) (hab : mn ≤ mx) :
    mn ≤ (jsRound (normalDistribution M seed mn mx mean * 10) : ℚ) / 10 ∧
    (jsRound (normalDistribution M seed mn mx mean * 10) : ℚ) / 10 ≤ mx := by
  obtain ⟨h1, h2⟩ := normalDistribution_mem M seed mn mx mean hab
  have h := jsRound_div10_mem (normalDistribution M seed mn mx mean) a b
    (hmn ▸ h1) (hmx ▸ h2)
  exact ⟨hmn ▸ h.1, hmx ▸ h.2⟩

/-- The confidence value `floor(75 + hash % 25)` lies in `[75, 99]`. -/
theorem confidence_mem (n : Nat) :
    75 ≤ ⌊(75 : ℚ) + ((n % 25 : ℕ) : ℚ)⌋ ∧ ⌊(75 : ℚ) + ((n % 25 : ℕ) : ℚ)⌋ ≤ 99 := by
  rw [confidence_floor]
  omega

/-- C3: for every valid identifier the pre-conversion measurement of
the first generator copy lies in `[1, 13]` and that of the second copy
in `[3, 10]`, and both confidences lie in `[75, 99]`, for every model
of the transcendental functions. -/
theorem measurement_and_confidence_in_range (M : FloatModel) (s : JSStr)
    (_h : isValidUsername s = true) :
    (1 ≤ (generateResults M s).originalSize ∧ (generateResults M s).originalSize ≤ 13 ∧
      75 ≤ (generateResults M s).confidence ∧ (generateResults M s).confidence ≤ 99) ∧
    (3 ≤ size2 M s ∧ size2 M s ≤ 10 ∧
      75 ≤ (generateResults2 M s).confidence ∧ (generateResults2 M s).confidence ≤ 99) := by
  obtain ⟨hs1, hs2⟩ := rounded_clamp_mem M (hashUsername s : ℤ) 1 13 6.5 10 130
    (by norm_num) (by norm_num) (by norm_num)
  obtain ⟨hc1, hc2⟩ := confidence_mem (hashUsername s)
  obtain ⟨ht1, ht2⟩ := rounded_clamp_mem M (hashUsername2 s : ℤ) 3 10 6.5 30 100
    (by norm_num) (by norm_num) (by norm_num)
  obtain ⟨hd1, hd2⟩ := confidence_mem (hashUsername2 s)
  exact ⟨⟨hs1, hs2, hc1, hc2⟩, ⟨ht1, ht2, hd1, hd2⟩⟩

/-- Witness for C3 at the identifier `alice`. -/
theorem measurement_and_confidence_in_range_witness :
    isValidUsername [97, 108, 105, 99, 101] = true ∧
    ((1 ≤ (generateResults M0 [97, 108, 105, 99, 101]).originalSize ∧
        (generateResults M0 [97, 108, 105, 99, 101]).originalSize ≤ 13 ∧
        75 ≤ (generateResults M0 [97, 108, 105, 99, 101]).confidence ∧
        (generateResults M0 [97, 108, 105, 99, 101]).confidence ≤ 99) ∧
      (3 ≤ size2 M0 [97, 108, 105, 99, 101] ∧ size2 M0 [97, 108, 105, 99, 101] ≤ 10 ∧
        75 ≤ (generateResults2 M0 [97, 108, 105, 99, 101]).confidence ∧
        (generateResults2 M0 [97, 108, 105, 99, 101]).confidence ≤ 99)) :=
  ⟨by decide, measurement_and_confidence_in_range M0 [97, 108, 105, 99, 101] (by decide)⟩

/-- C5: the generator uses the secondary unit cm exactly when the hash
is divisible by 10, in which case the displayed size is the primary
measurement times 2.54 rounded to one decimal; otherwise the unit is
inches and the displayed size is the primary measurement unchanged. -/
theorem unit_selection (M : FloatModel) (s : JSStr)
    (_h : isValidUsername s = true) :
    ((generateResults M s).unit = "cm" ↔ hashUsername s % 10 = 0) ∧
    (hashUsername s % 10 = 0 →
      (generateResults M s).size
        = (jsRound ((generateResults M s).originalSize * 2.54 * 10) : ℚ) / 10) ∧
    (hashUsername s % 10 ≠ 0 →
      (generateResults M s).unit = "inches" ∧
      (generateResults M s).size = (generateResults M s).originalSize) := by
  by_cases hm : hashUsername s % 10 = 0
  · have hu : (generateResults M s).unit = "cm" := by
      simp [generateResults, hm]
    have hsz : (generateResults M s).size
        = (jsRound ((generateResults M s).originalSize * 2.54 * 10) : ℚ) / 10 := by
      simp [generateResults, hm]
    exact ⟨⟨fun _ => hm, fun _ => hu⟩, fun _ => hsz, fun hc => absurd hm hc⟩
  · have hu : (generateResults M s).unit = "inches" := by
      simp [generateResults, hm]
    have hsz : (generateResults M s).size = (generateResults M s).originalSize := by
      simp [generateResults, hm]
    refine ⟨⟨fun hcm => ?_, fun hmm => absurd hmm hm⟩,
      fun hmm => absurd hmm hm, fun _ => ⟨hu, hsz⟩⟩
    rw [hu] at hcm
    exact absurd hcm (by decide)

/-- Witness for C5 at the identifier `alice`. -/
theorem unit_selection_witness :
    isValidUsername [97, 108, 105, 99, 101] = true ∧
    (((generateResults M0 [97, 108, 105, 99, 101]).unit = "cm" ↔
        hashUsername [97, 108, 105, 99, 101] % 10 = 0) ∧
      (hashUsername [97, 108, 105, 99, 101] % 10 = 0 →
        (generateResults M0 [97, 108, 105, 99, 101]).size
          = (jsRound ((generateResults M0 [97, 108, 105, 99, 101]).originalSize * 2.54 * 10) : ℚ) / 10) ∧
      (hashUsername [97, 108, 105, 99, 101] % 10 ≠ 0 →
        (generateResults M0 [97, 108, 105, 99, 101]).unit = "inches" ∧
        (generateResults M0 [97, 108, 105, 99, 101]).size
          = (generateResults M0 [97, 108, 105, 99, 101]).originalSize)) :=
  ⟨by decide, unit_selection M0 [97, 108, 105, 99, 101] (by decide)⟩

/-- C4: at 0.1 granularity every measurement value of the configured
interval is matched by exactly one category: the first table covers
each multiple of one tenth in `[1, 13]` exactly once, and the second
table each multiple of one tenth in `[3, 10]` exactly once — no gaps
and no overlaps. -/
theorem category_coverage :
    (∀ k : ℕ, k < 131 → 10 ≤ k →
      humorousDescriptions.countP
        (fun cat => decide (cat.lo ≤ (k : ℚ) / 10 ∧ (k : ℚ) / 10 ≤ cat.hi)) = 1) ∧
    (∀ k : ℕ, k < 101 → 30 ≤ k →
      humorousDescriptions2.countP
        (fun cat => decide (cat.lo ≤ (k : ℚ) / 10 ∧ (k : ℚ) / 10 ≤ cat.hi)) = 1) := by
  constructor
  · intro k hklt hkge
    simp only [humorousDescriptions, List.countP_cons, List.countP_nil,
      decide_eq_true_eq]
    simp only [le_div10_iff k 1.0 10 (by norm_num), div10_le_iff k 2.5 25 (by norm_num),
      le_div10_iff k 2.6 26 (by norm_num), div10_le_iff k 4.0 40 (by norm_num),
      le_div10_iff k 4.1 41 (by norm_num), div10_le_iff k 5.5 55 (by norm_num),
      le_div10_iff k 5.6 56 (by norm_num), div10_le_iff k 7.0 70 (by norm_num),
      le_div10_iff k 7.1 71 (by norm_num), div10_le_iff k 8.5 85 (by norm_num),
      le_div10_iff k 8.6 86 (by norm_num), div10_le_iff k 10.0 100 (by norm_num),
      le_div10_iff k 10.1 101 (by norm_num), div10_le_iff k 11.5 115 (by norm_num),
      le_div10_iff k 11.6 116 (by norm_num), div10_le_iff k 13.0 130 (by norm_num)]
    split_ifs <;> omega
  · intro k hklt hkge
    simp only [humorousDescriptions2, List.countP_cons, List.countP_nil,
      decide_eq_true_eq]
    simp only [le_div10_iff k 3 30 (by norm_num), div10_le_iff k 4 40 (by norm_num),
      le_div10_iff k 4.1 41 (by norm_num), div10_le_iff k 5.5 55 (by norm_num),
      le_div10_iff k 5.6 56 (by norm_num), div10_le_iff k 7 70 (by norm_num),
      le_div10_iff k 7.1 71 (by norm_num), div10_le_iff k 8.5 85 (by norm_num),
      le_div10_iff k 8.6 86 (by norm_num), div10_le_iff k 10 100 (by norm_num)]
    split_ifs <;> omega

/-- Witness for C4 at the grid points 2.5 and 5.0. -/
theorem category_coverage_witness :
    humorousDescriptions.countP
      (fun cat => decide (cat.lo ≤ ((25 : ℕ) : ℚ) / 10 ∧ ((25 : ℕ) : ℚ) / 10 ≤ cat.hi)) = 1 ∧
    humorousDescriptions2.countP
      (fun cat => decide (cat.lo ≤ ((50 : ℕ) : ℚ) / 10 ∧ ((50 : ℕ) : ℚ) / 10 ≤ cat.hi)) = 1 :=
  ⟨category_coverage.1 25 (by decide) (by decide),
   category_coverage.2 50 (by decide) (by decide)⟩
